import Mathlib

/-!
# Verification of the Triton-VM arithmetization core

Shallow embedding of the repository's three core modules —
`arguments/permutation_argument.rs`, `table/base_table.rs`, `proof_item.rs` —
together with models of the external collaborators they reference
(field elements, FRI domain, table collection, multivariate polynomials),
and proofs of the spec's testable properties over this embedding.

The field-element types of `twenty_first` are external collaborators; code
that only uses their ring/field interface is embedded generically over a
`Field F`. The base field `BFieldElement` is instantiated concretely (as
`ZMod p` for the Oxfoi prime) where its natural-number enumeration or its
coefficient role in serialization matters.
-/

set_option maxHeartbeats 1000000

/-- The base field element type (`BFieldElement` from `twenty_first`, an
external collaborator): the prime field of the Oxfoi prime
`2^64 - 2^32 + 1`. Only casts from naturals and decidable equality are
needed by the embedded code that is specific to it. -/
abbrev BFieldElement : Type := ZMod 18446744069414584321

/-- `XFieldElement` from `twenty_first` (external collaborator): a degree-3
extension-field element, carrying a fixed-size array of 3 base-field
coefficients. The proof-item serialization uses only the coefficient
decomposition, so the element is represented by its three coefficients. -/
structure XFieldElement where
  coefficient0 : BFieldElement
  coefficient1 : BFieldElement
  coefficient2 : BFieldElement
deriving DecidableEq

/-- `x.coefficients.to_vec()`: the ordered, fixed-size coefficient sequence
of an extension-field element. -/
def XFieldElement.coefficients (x : XFieldElement) : List BFieldElement :=
  [x.coefficient0, x.coefficient1, x.coefficient2]

/-- Modelled from the spec: `TableId` (from `table/table_collection.rs`, not
part of the provided sources) is "a closed enumeration of table kinds with
stable identifiers", one per distinct execution-trace table. -/
inductive TableId where
  | ProgramTable
  | InstructionTable
  | ProcessorTable
  | OpStackTable
  | RamTable
  | JumpStackTable
  | HashTable
  | U32OpTable
deriving DecidableEq

/-- Modelled from the spec: the extended-table collection
(`ExtTableCollection`, from `table/table_collection.rs`, not part of the
provided sources) is consumed here only through `data(table_id)`, which
yields the named table's codeword columns, and through
`interpolant_degree()`. Generic over the codeword element type `F`
(`XFieldElement` in the source). -/
structure ExtTableCollection (F : Type) where
  data : TableId → List (List F)
  interpolant_degree : Int

/-- Modelled from the spec: the evaluation domain (`FriDomain`, from
`fri_domain.rs`, not part of the provided sources) exposes an ordered
sequence of domain points (`domain_values()`), a generator `omega`, a
`length`, and polynomial evaluation over the domain (`evaluate`).
`P` is the polynomial type evaluated over the domain. -/
structure FriDomain (F : Type) (P : Type) where
  omega : F
  length : Nat
  domain_values : List F
  evaluate : P → List F

/-- `XFieldElement::batch_inversion` (external collaborator `twenty_first`):
the batched multiplicative inverse, pointwise inversion of a list of field
elements. -/
def batch_inversion {F : Type} [Field F] (xs : List F) : List F :=
  xs.map (fun x => x⁻¹)

/-- Three-list zip, the semantics of `itertools::izip!` over three iterators:
truncates to the shortest input. -/
def zipWith3 {α β γ δ : Type} (f : α → β → γ → δ) : List α → List β → List γ → List δ
  | a :: as, b :: bs, c :: cs => f a b c :: zipWith3 f as bs cs
  | _, _, _ => []

/-- `PermArg` (`arguments/permutation_argument.rs`): an immutable 4-tuple
naming a column in each of two extended tables. -/
structure PermArg where
  from_table : TableId
  from_column : Nat
  to_table : TableId
  to_column : Nat
deriving DecidableEq

/-- `PermArg::new`: pure data constructor, no validation. -/
def PermArg.new (from_table : TableId) (from_column : Nat)
    (to_table : TableId) (to_column : Nat) : PermArg :=
  { from_table := from_table, from_column := from_column,
    to_table := to_table, to_column := to_column }

/-- `PermArg::quotient`: looks up the two named codewords, batch-inverts the
zerofier `x - 1` over the whole FRI domain, and zips the three sequences
pointwise with `(from - to) * z`. Out-of-bounds column access (a panic in
the source) is modelled by the empty-codeword default. -/
def PermArg.quotient {F P : Type} [Field F] (pa : PermArg)
    (ext_codeword_tables : ExtTableCollection F)
    (fri_domain : FriDomain F P) : List F :=
  let lhs_codeword := (ext_codeword_tables.data pa.from_table).getD pa.from_column []
  let rhs_codeword := (ext_codeword_tables.data pa.to_table).getD pa.to_column []
  let inverse_zerofier :=
    batch_inversion (fri_domain.domain_values.map (fun x => x - 1))
  zipWith3 (fun f t z => (f - t) * z) lhs_codeword rhs_codeword inverse_zerofier

/-- `PermArg::quotient_degree_bound`: one less than the common interpolant
degree of the extended tables. -/
def PermArg.quotient_degree_bound {F : Type} (_pa : PermArg)
    (ext_codeword_tables : ExtTableCollection F) : Int :=
  ext_codeword_tables.interpolant_degree - 1

/-- Modelled from the spec: the extension-table column indices (from
`table/table_column.rs`, not part of the provided sources; the spec treats
the per-table column indices as exposed identifiers only). Their concrete
values do not bear on any verified property; each permutation-argument
column of the processor table is a distinct index, and each target table's
running-product column is an index in that table. -/
def ExtProcessorTableColumn.InstructionTablePermArg_index : Nat := 0

def ExtProcessorTableColumn.JumpStackTablePermArg_index : Nat := 1

def ExtProcessorTableColumn.OpStackTablePermArg_index : Nat := 2

def ExtProcessorTableColumn.RamTablePermArg_index : Nat := 3

def ExtProcessorTableColumn.U32OpTablePermArg_index : Nat := 4

def ExtInstructionTableColumn.RunningProductPermArg_index : Nat := 0

def ExtJumpStackTableColumn.RunningProductPermArg_index : Nat := 0

def ExtOpStackTableColumn.RunningProductPermArg_index : Nat := 0

def ExtRamTableColumn.RunningProductPermArg_index : Nat := 0

def ExtU32OpTableColumn.RunningProductPermArg_index : Nat := 0

/-- A Permutation Argument between Processor Table and Instruction Table. -/
def PermArg.processor_instruction_perm_arg : PermArg :=
  PermArg.new TableId.ProcessorTable ExtProcessorTableColumn.InstructionTablePermArg_index
    TableId.InstructionTable ExtInstructionTableColumn.RunningProductPermArg_index

/-- A Permutation Argument between Processor Table and Jump-Stack Table. -/
def PermArg.processor_jump_stack_perm_arg : PermArg :=
  PermArg.new TableId.ProcessorTable ExtProcessorTableColumn.JumpStackTablePermArg_index
    TableId.JumpStackTable ExtJumpStackTableColumn.RunningProductPermArg_index

/-- A Permutation Argument between Processor Table and Op-Stack Table. -/
def PermArg.processor_op_stack_perm_arg : PermArg :=
  PermArg.new TableId.ProcessorTable ExtProcessorTableColumn.OpStackTablePermArg_index
    TableId.OpStackTable ExtOpStackTableColumn.RunningProductPermArg_index

/-- A Permutation Argument between Processor Table and RAM Table. -/
def PermArg.processor_ram_perm_arg : PermArg :=
  PermArg.new TableId.ProcessorTable ExtProcessorTableColumn.RamTablePermArg_index
    TableId.RamTable ExtRamTableColumn.RunningProductPermArg_index

/-- A Permutation Argument with the u32 Op-Table. -/
def PermArg.processor_u32_perm_arg : PermArg :=
  PermArg.new TableId.ProcessorTable ExtProcessorTableColumn.U32OpTablePermArg_index
    TableId.U32OpTable ExtU32OpTableColumn.RunningProductPermArg_index

/-- Modelled from the spec: `PROCESSOR_TABLE_PERMUTATION_ARGUMENTS_COUNT`
(from `table/processor_table.rs`, not part of the provided sources), the
length of the array returned by `all_permutation_arguments`; the spec fixes
the system-wide set at exactly 5 members. -/
def PROCESSOR_TABLE_PERMUTATION_ARGUMENTS_COUNT : Nat := 5

/-- `PermArg::all_permutation_arguments`: the system-wide fixed list of 5
permutation arguments. -/
def PermArg.all_permutation_arguments : List PermArg :=
  [ PermArg.processor_instruction_perm_arg,
    PermArg.processor_jump_stack_perm_arg,
    PermArg.processor_op_stack_perm_arg,
    PermArg.processor_ram_perm_arg,
    PermArg.processor_u32_perm_arg ]

/-- The returned list has the source array's declared length. -/
theorem all_permutation_arguments_length_matches_count :
    PermArg.all_permutation_arguments.length =
      PROCESSOR_TABLE_PERMUTATION_ARGUMENTS_COUNT := rfl

/-- Modelled from the spec: `twenty_first`'s multivariate polynomial
(`MPolynomial`, an external collaborator) is consumed by the embedded code
only through its `symbolic_degree_bound` query against a vector of
per-variable maximum degrees, so the polynomial is represented by that
query. `F` records the source's coefficient-type parameter. -/
structure MPolynomial (F : Type) where
  symbolic_degree_bound : List Int → Int

/-- `BaseTable<FieldElement>` (`table/base_table.rs`): trace data plus
optional AIR constraints and quotient degree bounds, populated upon
extension. -/
structure BaseTable (F : Type) where
  base_width : Nat
  full_width : Nat
  matrix : List (List F)
  name : String
  boundary_constraints : Option (List (MPolynomial F))
  transition_constraints : Option (List (MPolynomial F))
  consistency_constraints : Option (List (MPolynomial F))
  terminal_constraints : Option (List (MPolynomial F))
  boundary_quotient_degree_bounds : Option (List Int)
  transition_quotient_degree_bounds : Option (List Int)
  consistency_quotient_degree_bounds : Option (List Int)
  terminal_quotient_degree_bounds : Option (List Int)

/-- `BaseTable::new`: stores the arguments, leaves every constraint and
degree-bound field unset. No validation. -/
def BaseTable.new {F : Type} (base_width full_width : Nat)
    (matrix : List (List F)) (name : String) : BaseTable F :=
  { base_width := base_width
    full_width := full_width
    matrix := matrix
    name := name
    boundary_constraints := none
    transition_constraints := none
    consistency_constraints := none
    terminal_constraints := none
    boundary_quotient_degree_bounds := none
    transition_quotient_degree_bounds := none
    consistency_quotient_degree_bounds := none
    terminal_quotient_degree_bounds := none }

/-- `BaseTable::compute_degree_bounds`: per AIR constraint, the symbolic
degree bound over `full_width` variables each bounded by
`interpolant_degree`, minus 1. -/
def BaseTable.compute_degree_bounds {F : Type} (air_constraints : List (MPolynomial F))
    (interpolant_degree : Int) (full_width : Nat) : List Int :=
  air_constraints.map
    (fun mpo => mpo.symbolic_degree_bound (List.replicate full_width interpolant_degree) - 1)

/-- `BaseTable::extension`: consumes the base table and attaches the four
constraint lists together with their degree bounds; transition bounds are
computed over `2 * full_width` variables, the other three over
`full_width`. -/
def BaseTable.extension {F : Type} (base_table : BaseTable F) (interpolant_degree : Int)
    (boundary_constraints transition_constraints consistency_constraints
      terminal_constraints : List (MPolynomial F)) : BaseTable F :=
  let full_width := base_table.full_width
  let boundary_qdb :=
    BaseTable.compute_degree_bounds boundary_constraints interpolant_degree full_width
  let transition_qdb :=
    BaseTable.compute_degree_bounds transition_constraints interpolant_degree (2 * full_width)
  let consistency_qdb :=
    BaseTable.compute_degree_bounds consistency_constraints interpolant_degree full_width
  let terminal_qdb :=
    BaseTable.compute_degree_bounds terminal_constraints interpolant_degree full_width
  { base_table with
    boundary_constraints := some boundary_constraints
    transition_constraints := some transition_constraints
    consistency_constraints := some consistency_constraints
    terminal_constraints := some terminal_constraints
    boundary_quotient_degree_bounds := some boundary_qdb
    transition_quotient_degree_bounds := some transition_qdb
    consistency_quotient_degree_bounds := some consistency_qdb
    terminal_quotient_degree_bounds := some terminal_qdb }

/-- `BaseTable::with_data`: structural copy with new `matrix` data and a
decorated name. -/
def BaseTable.with_data {F : Type} (t : BaseTable F) (matrix : List (List F)) : BaseTable F :=
  { t with matrix := matrix, name := t.name ++ " with data" }

/-- `BaseTable::<BWord>::with_lifted_data`: builds a fresh `BaseTable` (via
`BaseTable::new`) over the extension field with the same widths, the given
lifted `matrix`, and a decorated name. `num_trace_randomizers` is an unused
parameter in the source. -/
def BaseTable.with_lifted_data {X : Type} (t : BaseTable BWord)
    (matrix : List (List X)) (_num_trace_randomizers : Nat) : BaseTable X :=
  BaseTable.new t.base_width t.full_width matrix (t.name ++ " with lifted data")

/-- `disjoint_domain` (`table/base_table.rs`): scans the canonical
enumeration `0, 1, 2, …` of `2^32` small field representatives, skips
every value contained in the exclusion list, and takes the first
`domain_length` survivors. The `ring_one` argument is used by the source
only to obtain the field's zero for `new_from_usize`, which the embedding
renders as the natural-number cast. -/
def disjoint_domain {F : Type} [NatCast F] [DecidableEq F]
    (domain_length : Nat) (excluded : List F) (_ring_one : F) : List F :=
  ((((List.range (2 ^ 32)).map (fun d => (Nat.cast d : F)))).filter
    (fun d => decide (d ∉ excluded))).take domain_length

/-- The `pad` loop (`BaseTableTrait::pad`): while the matrix height differs
from the target, push one padding row. The source loop diverges when the
height exceeds the target (no guard exists); the model's measure-based
recursion exits there, and every theorem about `pad` carries the caller's
precondition `matrix.len() ≤ target` under which model and source agree. -/
def padLoop {F : Type} (padding_row : List F) (matrix : List (List F))
    (shared_padded_height : Nat) : List (List F) :=
  if matrix.length = shared_padded_height then matrix
  else if _h : matrix.length < shared_padded_height then
    padLoop padding_row (matrix ++ [padding_row]) shared_padded_height
  else matrix
termination_by shared_padded_height - matrix.length
decreasing_by simp; omega

/-- `BaseTableTrait::pad`: table-level wrapper of the padding loop. The
table-kind-specific `get_padding_row()` capability (spec: a padding-row
supplier, one per concrete table kind) is passed as the row it supplies. -/
def BaseTable.pad {F : Type} (t : BaseTable F) (padding_row : List F)
    (shared_padded_height : Nat) : BaseTable F :=
  { t with matrix := padLoop padding_row t.matrix shared_padded_height }

/-- The failure message of the padding assertion in
`BaseTableTrait::interpolate_columns`. -/
def paddingAssertMessage (table_name : String) : String :=
  table_name ++ ": Table data must be padded before interpolation"

/-- The failure message of the interpolation-domain-length assertion in
`BaseTableTrait::interpolate_columns`. -/
def lengthAssertMessage : String :=
  "Length of x values and y values must match"

/-- `BaseTableTrait::interpolate_columns`: asserts the table is padded to
`shared_padded_height`, then interpolates every requested column over the
omicron domain extended by a disjoint randomizer domain. Assertion failures
(panics in the source) are modelled as `Except.error` with the source's
message. The external collaborators are passed in: `fast_interpolate` and
the zero polynomial (`twenty_first`'s `Polynomial`), and the ambient random
source as `randomizers j`, the random y-values drawn for the `j`-th
requested column. The `columns` range is passed as its list of indices. -/
def BaseTable.interpolate_columns {F P : Type} [Field F] [DecidableEq F]
    (fast_interpolate : List F → List F → F → Nat → P) (poly_ring_zero : P)
    (randomizers : Nat → List F)
    (t : BaseTable F) (fri_domain : FriDomain F P) (omicron : F)
    (shared_padded_height num_trace_randomizers : Nat)
    (columns : List Nat) : Except String (List P) :=
  if shared_padded_height = t.matrix.length then
    if shared_padded_height = 0 then
      Except.ok (List.replicate columns.length poly_ring_zero)
    else
      let omicron_domain := (List.range shared_padded_height).map (fun i => omicron ^ i)
      let randomizer_domain :=
        disjoint_domain num_trace_randomizers omicron_domain (1 : F)
      let interpolation_domain := omicron_domain ++ randomizer_domain
      let all_randomized_traces :=
        columns.enum.map (fun jc =>
          (t.matrix.map (fun row => row.getD jc.2 0)) ++ randomizers jc.1)
      if all_randomized_traces.all
          (fun rt => decide (rt.length = interpolation_domain.length)) then
        Except.ok (all_randomized_traces.map (fun rt =>
          fast_interpolate interpolation_domain rt fri_domain.omega fri_domain.length))
      else
        Except.error lengthAssertMessage
  else
    Except.error (paddingAssertMessage t.name)

/-- `BaseTableTrait::low_degree_extension`: interpolate all requested
columns, then evaluate each interpolant over the FRI domain. -/
def BaseTable.low_degree_extension {F P : Type} [Field F] [DecidableEq F]
    (fast_interpolate : List F → List F → F → Nat → P) (poly_ring_zero : P)
    (randomizers : Nat → List F)
    (t : BaseTable F) (fri_domain : FriDomain F P) (omicron : F)
    (shared_padded_height num_trace_randomizers : Nat)
    (columns : List Nat) : Except String (List (List F)) :=
  (BaseTable.interpolate_columns fast_interpolate poly_ring_zero randomizers
      t fri_domain omicron shared_padded_height num_trace_randomizers columns).map
    (fun polynomials => polynomials.map fri_domain.evaluate)


/-- Modelled from the spec: `AllEndpoints` (from
`table/challenges_endpoints.rs`, not part of the provided sources), the
terminal-value bundle; its canonical flattening (`into_iter`) yields a
sequence of base-field elements, which the model carries directly. -/
structure AllEndpoints where
  terminal_values : List BFieldElement
deriving DecidableEq

/-- The flattening of the terminal-value bundle. -/
def AllEndpoints.into_iter (ae : AllEndpoints) : List BFieldElement :=
  ae.terminal_values

/-- `PartialAuthenticationPath` (external collaborator `twenty_first`): a
newtype over a vector of optional nodes; absent nodes are recomputable by
the verifier and skipped during flattening. -/
structure PartialAuthenticationPath (α : Type) where
  nodes : List (Option α)
deriving DecidableEq

/-- `type FriProof` (`proof_item.rs`): per entry, a partial authentication
path of base-field vectors paired with an extension-field value. -/
abbrev FriProof : Type :=
  List (PartialAuthenticationPath (List BFieldElement) × XFieldElement)

/-- `type CompressedAuthenticationPaths` (`proof_item.rs`). -/
abbrev CompressedAuthenticationPaths : Type :=
  List (PartialAuthenticationPath (List BFieldElement))

/-- `Item` (`proof_item.rs`): the tagged union of every transcript payload
type. -/
inductive Item where
  | CompressedAuthenticationPaths (caps : CompressedAuthenticationPaths)
  | TransposedBaseElementVectors (bss : List (List BFieldElement))
  | TransposedExtensionElementVectors (xss : List (List XFieldElement))
  | MerkleRoot (bs : List BFieldElement)
  | Terminals (all_endpoints : AllEndpoints)
  | TransposedBaseElements (bs : List BFieldElement)
  | TransposedExtensionElements (xs : List XFieldElement)
  | AuthenticationPath (bss : List (List BFieldElement))
  | RevealedCombinationElement (x : XFieldElement)
  | RevealedCombinationElements (xs : List XFieldElement)
  | FriCodeword (xs : List XFieldElement)
  | FriProof (fri_proof : FriProof)
  | SharedPaddedHeight (height : BFieldElement)
deriving DecidableEq

/-- `Item::as_compressed_authentication_paths`. -/
def Item.as_compressed_authentication_paths (i : Item) :
    Except String (List (PartialAuthenticationPath (List BFieldElement))) :=
  match i with
  | .CompressedAuthenticationPaths caps => Except.ok caps
  | _ => Except.error "expected compressed authentication paths, but got something else"

/-- `Item::as_transposed_base_element_vectors`. -/
def Item.as_transposed_base_element_vectors (i : Item) :
    Except String (List (List BFieldElement)) :=
  match i with
  | .TransposedBaseElementVectors bss => Except.ok bss
  | _ => Except.error "expected transposed base element vectors, but got something else"

/-- `Item::as_transposed_extension_element_vectors`. -/
def Item.as_transposed_extension_element_vectors (i : Item) :
    Except String (List (List XFieldElement)) :=
  match i with
  | .TransposedExtensionElementVectors xss => Except.ok xss
  | _ => Except.error "expected transposed extension element vectors, but got something else"

/-- `Item::as_merkle_root`. -/
def Item.as_merkle_root (i : Item) : Except String (List BFieldElement) :=
  match i with
  | .MerkleRoot bs => Except.ok bs
  | _ => Except.error "expected merkle root, but got something else"

/-- `Item::as_terminals`. -/
def Item.as_terminals (i : Item) : Except String AllEndpoints :=
  match i with
  | .Terminals all_endpoints => Except.ok all_endpoints
  | _ => Except.error "expected all terminals, but got something else"

/-- `Item::as_transposed_base_elements`. -/
def Item.as_transposed_base_elements (i : Item) : Except String (List BFieldElement) :=
  match i with
  | .TransposedBaseElements bs => Except.ok bs
  | _ => Except.error "expected tranposed base elements, but got something else"

/-- `Item::as_transposed_extension_elements`. -/
def Item.as_transposed_extension_elements (i : Item) : Except String (List XFieldElement) :=
  match i with
  | .TransposedExtensionElements xs => Except.ok xs
  | _ => Except.error "expected tranposed extension elements, but got something else"

/-- `Item::as_authentication_path`. -/
def Item.as_authentication_path (i : Item) : Except String (List (List BFieldElement)) :=
  match i with
  | .AuthenticationPath bss => Except.ok bss
  | _ => Except.error "expected authentication path, but got something else"

/-- `Item::as_revealed_combination_element`. -/
def Item.as_revealed_combination_element (i : Item) : Except String XFieldElement :=
  match i with
  | .RevealedCombinationElement x => Except.ok x
  | _ => Except.error "expected revealed combination element, but got something else"

/-- `Item::as_revealed_combination_elements`. -/
def Item.as_revealed_combination_elements (i : Item) : Except String (List XFieldElement) :=
  match i with
  | .RevealedCombinationElements xs => Except.ok xs
  | _ => Except.error "expected revealed combination elements, but got something else"

/-- `Item::as_fri_codeword`. -/
def Item.as_fri_codeword (i : Item) : Except String (List XFieldElement) :=
  match i with
  | .FriCodeword xs => Except.ok xs
  | _ => Except.error "expected FRI codeword, but got something else"

/-- `Item::as_fri_proof`. -/
def Item.as_fri_proof (i : Item) :
    Except String (List (PartialAuthenticationPath (List BFieldElement) × XFieldElement)) :=
  match i with
  | .FriProof fri_proof => Except.ok fri_proof
  | _ => Except.error "expected FRI proof, but got something else"

/-- `Item::as_shared_padded_height`. -/
def Item.as_shared_padded_height (i : Item) : Except String BFieldElement :=
  match i with
  | .SharedPaddedHeight shared_padded_height => Except.ok shared_padded_height
  | _ => Except.error "expected shared, padded table height, but got something else"

/-- `xs_to_bs` (`proof_item.rs`): concatenation of the coefficient vectors
of a sequence of extension-field elements. -/
def xs_to_bs (xs : List XFieldElement) : List BFieldElement :=
  (xs.map (fun x => x.coefficients)).flatten

/-- `impl IntoIterator for Item`, `into_iter`: the canonical flattening of
each variant into a sequence of base-field elements. The source's
accumulate-in-a-loop variants (`FriProof`,
`CompressedAuthenticationPaths`) are rendered as the corresponding left
folds; `iter().flatten()` over optional nodes keeps exactly the present
nodes, in order. -/
def Item.into_iter (i : Item) : List BFieldElement :=
  match i with
  | .MerkleRoot bs => bs
  | .Terminals all_endpoints => all_endpoints.into_iter
  | .TransposedBaseElements bs => bs
  | .TransposedExtensionElements xs => xs_to_bs xs
  | .AuthenticationPath bss => bss.flatten
  | .RevealedCombinationElement x => xs_to_bs [x]
  | .FriCodeword xs => xs_to_bs xs
  | .RevealedCombinationElements xs => xs_to_bs xs
  | .FriProof fri_proof =>
      fri_proof.foldl (fun bs pr =>
        ((pr.1.nodes.filterMap id).foldl (fun acc node => acc ++ node) bs) ++ xs_to_bs [pr.2])
        []
  | .CompressedAuthenticationPaths partial_auth_paths =>
      partial_auth_paths.foldl (fun bs p =>
        (p.nodes.filterMap id).foldl (fun acc node => acc ++ node) bs) []
  | .TransposedBaseElementVectors bss => bss.flatten
  | .TransposedExtensionElementVectors xss => (xss.map (fun xs => xs_to_bs xs)).flatten
  | .SharedPaddedHeight shared_padded_height => [shared_padded_height]

/-- Variant discriminant of an `Item`, in source declaration order; used to
state the typed-accessor property uniformly. -/
def Item.tag (i : Item) : Nat :=
  match i with
  | .CompressedAuthenticationPaths _ => 0
  | .TransposedBaseElementVectors _ => 1
  | .TransposedExtensionElementVectors _ => 2
  | .MerkleRoot _ => 3
  | .Terminals _ => 4
  | .TransposedBaseElements _ => 5
  | .TransposedExtensionElements _ => 6
  | .AuthenticationPath _ => 7
  | .RevealedCombinationElement _ => 8
  | .RevealedCombinationElements _ => 9
  | .FriCodeword _ => 10
  | .FriProof _ => 11
  | .SharedPaddedHeight _ => 12

/-! ## Helper lemmas -/

theorem padLoop_eq {F : Type} (padding_row : List F) :
    ∀ (n : Nat) (matrix : List (List F)) (target : Nat),
      target - matrix.length = n → matrix.length ≤ target →
      padLoop padding_row matrix target =
        matrix ++ List.replicate (target - matrix.length) padding_row := by
  intro n
  induction n with
  | zero =>
    intro matrix target hn hle
    have heq : matrix.length = target := by omega
    rw [padLoop]
    simp [heq]
  | succ k ih =>
    intro matrix target hn hle
    have hne : ¬matrix.length = target := by omega
    have hlt : matrix.length < target := by omega
    rw [padLoop, if_neg hne, dif_pos hlt]
    rw [ih (matrix ++ [padding_row]) target (by simp; omega) (by simp; omega)]
    rw [List.append_assoc]
    congr 1
    have h1 : target - matrix.length =
        target - (matrix ++ [padding_row]).length + 1 := by
      simp; omega
    rw [h1, List.replicate_succ]
    simp

/-! ## Claims -/

/-- C9: `all_permutation_arguments` returns exactly 5 permutation arguments,
every one of them links from the processor table, and their targets are the
instruction, jump-stack, op-stack, RAM, and u32 tables, in that order. -/
theorem all_permutation_arguments_from_processor :
    PermArg.all_permutation_arguments.length = 5 ∧
    (∀ pa ∈ PermArg.all_permutation_arguments,
      pa.from_table = TableId.ProcessorTable) ∧
    PermArg.all_permutation_arguments.map PermArg.to_table =
      [TableId.InstructionTable, TableId.JumpStackTable, TableId.OpStackTable,
       TableId.RamTable, TableId.U32OpTable] := by
  refine ⟨rfl, ?_, rfl⟩
  intro pa hpa
  fin_cases hpa <;> rfl

/-- C2: `extension` attaches one quotient degree bound per supplied
constraint polynomial: the symbolic degree bound over `full_width`
variables each bounded by the interpolant degree, minus 1, for boundary,
consistency and terminal constraints, and the same formula over
`2 * full_width` variables for transition constraints. -/
theorem extension_quotient_degree_bounds {F : Type} (base_table : BaseTable F)
    (interpolant_degree : Int)
    (boundary transition consistency terminal : List (MPolynomial F)) :
    (BaseTable.extension base_table interpolant_degree boundary transition
        consistency terminal).boundary_quotient_degree_bounds =
      some (boundary.map (fun c => c.symbolic_degree_bound
        (List.replicate base_table.full_width interpolant_degree) - 1)) ∧
    (BaseTable.extension base_table interpolant_degree boundary transition
        consistency terminal).transition_quotient_degree_bounds =
      some (transition.map (fun c => c.symbolic_degree_bound
        (List.replicate (2 * base_table.full_width) interpolant_degree) - 1)) ∧
    (BaseTable.extension base_table interpolant_degree boundary transition
        consistency terminal).consistency_quotient_degree_bounds =
      some (consistency.map (fun c => c.symbolic_degree_bound
        (List.replicate base_table.full_width interpolant_degree) - 1)) ∧
    (BaseTable.extension base_table interpolant_degree boundary transition
        consistency terminal).terminal_quotient_degree_bounds =
      some (terminal.map (fun c => c.symbolic_degree_bound
        (List.replicate base_table.full_width interpolant_degree) - 1)) :=
  ⟨rfl, rfl, rfl, rfl⟩

/-- C10: `with_lifted_data` produces a table with every constraint and
degree-bound field `None`, the source's widths, the new matrix, the source
name decorated with " with lifted data", and a result independent of the
`num_trace_randomizers` argument. -/
theorem with_lifted_data_resets_constraints {X : Type} (t : BaseTable BWord)
    (matrix : List (List X)) (num_trace_randomizers : Nat) :
    (t.with_lifted_data matrix num_trace_randomizers).base_width = t.base_width ∧
    (t.with_lifted_data matrix num_trace_randomizers).full_width = t.full_width ∧
    (t.with_lifted_data matrix num_trace_randomizers).matrix = matrix ∧
    (t.with_lifted_data matrix num_trace_randomizers).name =
      t.name ++ " with lifted data" ∧
    (t.with_lifted_data matrix num_trace_randomizers).boundary_constraints = none ∧
    (t.with_lifted_data matrix num_trace_randomizers).transition_constraints = none ∧
    (t.with_lifted_data matrix num_trace_randomizers).consistency_constraints = none ∧
    (t.with_lifted_data matrix num_trace_randomizers).terminal_constraints = none ∧
    (t.with_lifted_data matrix num_trace_randomizers).boundary_quotient_degree_bounds
      = none ∧
    (t.with_lifted_data matrix num_trace_randomizers).transition_quotient_degree_bounds
      = none ∧
    (t.with_lifted_data matrix num_trace_randomizers).consistency_quotient_degree_bounds
      = none ∧
    (t.with_lifted_data matrix num_trace_randomizers).terminal_quotient_degree_bounds
      = none ∧
    (∀ m : Nat, t.with_lifted_data matrix num_trace_randomizers =
      t.with_lifted_data matrix m) :=
  ⟨rfl, rfl, rfl, rfl, rfl, rfl, rfl, rfl, rfl, rfl, rfl, rfl, fun _ => rfl⟩

/-- C6: padding a table of height `h0` to any `target ≥ h0` yields height
exactly `target`, keeps the first `h0` rows unchanged and in original
order, and every appended row equals the supplied padding row. -/
theorem pad_reaches_target_preserving_rows {F : Type} (t : BaseTable F)
    (padding_row : List F) (target : Nat) (h : t.matrix.length ≤ target) :
    ((t.pad padding_row target).matrix.length = target) ∧
    ((t.pad padding_row target).matrix.take t.matrix.length = t.matrix) ∧
    (∀ r ∈ (t.pad padding_row target).matrix.drop t.matrix.length,
      r = padding_row) := by
  have hp := padLoop_eq padding_row (target - t.matrix.length) t.matrix target rfl h
  unfold BaseTable.pad
  simp only [hp]
  refine ⟨?_, ?_, ?_⟩
  · simp only [List.length_append, List.length_replicate]; omega
  · exact List.take_left _ _
  · intro r hr
    rw [List.drop_left] at hr
    exact List.eq_of_mem_replicate hr

theorem pad_reaches_target_preserving_rows_witness :
    (BaseTable.new 1 1 [[(1 : BFieldElement)]] "t").matrix.length ≤ 3 ∧
    (((BaseTable.new 1 1 [[(1 : BFieldElement)]] "t").pad [0] 3).matrix.length = 3 ∧
    (((BaseTable.new 1 1 [[(1 : BFieldElement)]] "t").pad [0] 3).matrix.take
        (BaseTable.new 1 1 [[(1 : BFieldElement)]] "t").matrix.length =
      (BaseTable.new 1 1 [[(1 : BFieldElement)]] "t").matrix) ∧
    (∀ r ∈ ((BaseTable.new 1 1 [[(1 : BFieldElement)]] "t").pad [0] 3).matrix.drop
        (BaseTable.new 1 1 [[(1 : BFieldElement)]] "t").matrix.length,
      r = [0])) :=
  ⟨by decide,
   pad_reaches_target_preserving_rows (BaseTable.new 1 1 [[(1 : BFieldElement)]] "t")
     [0] 3 (by decide)⟩

/-- C7: for every call satisfying the precondition
`matrix.len() ≤ shared_padded_height`, the padding loop terminates and
performs exactly `shared_padded_height − matrix.len()` appends — the final
matrix is the original followed by exactly that many padding rows, zero
when the table is already at the target height. -/
theorem pad_appends_exactly_difference {F : Type} (t : BaseTable F)
    (padding_row : List F) (target : Nat) (h : t.matrix.length ≤ target) :
    (t.pad padding_row target).matrix =
      t.matrix ++ List.replicate (target - t.matrix.length) padding_row := by
  have hp := padLoop_eq padding_row (target - t.matrix.length) t.matrix target rfl h
  unfold BaseTable.pad
  simp only [hp]

theorem pad_appends_exactly_difference_witness :
    (BaseTable.new 2 2 [[(0 : BFieldElement), 0]] "u").matrix.length ≤ 2 ∧
    ((BaseTable.new 2 2 [[(0 : BFieldElement), 0]] "u").pad [1, 1] 2).matrix =
      (BaseTable.new 2 2 [[(0 : BFieldElement), 0]] "u").matrix ++
        List.replicate
          (2 - (BaseTable.new 2 2 [[(0 : BFieldElement), 0]] "u").matrix.length)
          [1, 1] :=
  ⟨by decide,
   pad_appends_exactly_difference (BaseTable.new 2 2 [[(0 : BFieldElement), 0]] "u")
     [1, 1] 2 (by decide)⟩

/-- C4: for every proof-item variant, the typed accessor applied to an item
constructed as that variant succeeds with the original payload unchanged,
and applied to an item of any other variant (any item with a different
variant tag) fails with the variant's type-mismatch error. -/
theorem item_typed_accessors_exhaustive :
    (∀ caps, (Item.CompressedAuthenticationPaths caps).as_compressed_authentication_paths
      = Except.ok caps) ∧
    (∀ i : Item, i.tag ≠ 0 → i.as_compressed_authentication_paths =
      Except.error "expected compressed authentication paths, but got something else") ∧
    (∀ bss, (Item.TransposedBaseElementVectors bss).as_transposed_base_element_vectors
      = Except.ok bss) ∧
    (∀ i : Item, i.tag ≠ 1 → i.as_transposed_base_element_vectors =
      Except.error "expected transposed base element vectors, but got something else") ∧
    (∀ xss, (Item.TransposedExtensionElementVectors xss).as_transposed_extension_element_vectors
      = Except.ok xss) ∧
    (∀ i : Item, i.tag ≠ 2 → i.as_transposed_extension_element_vectors =
      Except.error "expected transposed extension element vectors, but got something else") ∧
    (∀ bs, (Item.MerkleRoot bs).as_merkle_root = Except.ok bs) ∧
    (∀ i : Item, i.tag ≠ 3 → i.as_merkle_root =
      Except.error "expected merkle root, but got something else") ∧
    (∀ ae, (Item.Terminals ae).as_terminals = Except.ok ae) ∧
    (∀ i : Item, i.tag ≠ 4 → i.as_terminals =
      Except.error "expected all terminals, but got something else") ∧
    (∀ bs, (Item.TransposedBaseElements bs).as_transposed_base_elements = Except.ok bs) ∧
    (∀ i : Item, i.tag ≠ 5 → i.as_transposed_base_elements =
      Except.error "expected tranposed base elements, but got something else") ∧
    (∀ xs, (Item.TransposedExtensionElements xs).as_transposed_extension_elements
      = Except.ok xs) ∧
    (∀ i : Item, i.tag ≠ 6 → i.as_transposed_extension_elements =
      Except.error "expected tranposed extension elements, but got something else") ∧
    (∀ bss, (Item.AuthenticationPath bss).as_authentication_path = Except.ok bss) ∧
    (∀ i : Item, i.tag ≠ 7 → i.as_authentication_path =
      Except.error "expected authentication path, but got something else") ∧
    (∀ x, (Item.RevealedCombinationElement x).as_revealed_combination_element
      = Except.ok x) ∧
    (∀ i : Item, i.tag ≠ 8 → i.as_revealed_combination_element =
      Except.error "expected revealed combination element, but got something else") ∧
    (∀ xs, (Item.RevealedCombinationElements xs).as_revealed_combination_elements
      = Except.ok xs) ∧
    (∀ i : Item, i.tag ≠ 9 → i.as_revealed_combination_elements =
      Except.error "expected revealed combination elements, but got something else") ∧
    (∀ xs, (Item.FriCodeword xs).as_fri_codeword = Except.ok xs) ∧
    (∀ i : Item, i.tag ≠ 10 → i.as_fri_codeword =
      Except.error "expected FRI codeword, but got something else") ∧
    (∀ fp, (Item.FriProof fp).as_fri_proof = Except.ok fp) ∧
    (∀ i : Item, i.tag ≠ 11 → i.as_fri_proof =
      Except.error "expected FRI proof, but got something else") ∧
    (∀ hgt, (Item.SharedPaddedHeight hgt).as_shared_padded_height = Except.ok hgt) ∧
    (∀ i : Item, i.tag ≠ 12 → i.as_shared_padded_height =
      Except.error "expected shared, padded table height, but got something else") := by
  refine ⟨fun _ => rfl, ?_, fun _ => rfl, ?_, fun _ => rfl, ?_, fun _ => rfl, ?_,
    fun _ => rfl, ?_, fun _ => rfl, ?_, fun _ => rfl, ?_, fun _ => rfl, ?_,
    fun _ => rfl, ?_, fun _ => rfl, ?_, fun _ => rfl, ?_, fun _ => rfl, ?_,
    fun _ => rfl, ?_⟩ <;>
  · intro i h
    cases i <;> first | rfl | exact absurd rfl h

theorem item_typed_accessors_exhaustive_witness :
    (Item.MerkleRoot []).tag ≠ 0 ∧
    (Item.MerkleRoot []).as_compressed_authentication_paths =
      Except.error "expected compressed authentication paths, but got something else" :=
  ⟨by decide, item_typed_accessors_exhaustive.2.1 (Item.MerkleRoot []) (by decide)⟩

theorem foldl_append_eq {α β : Type} (g : α → List β) :
    ∀ (l : List α) (init : List β),
      l.foldl (fun acc a => acc ++ g a) init = init ++ (l.map g).flatten := by
  intro l
  induction l with
  | nil => intro init; simp
  | cons a l ih => intro init; simp [ih, List.append_assoc]

theorem intoIter_friProof_foldl
    (fp : List (PartialAuthenticationPath (List BFieldElement) × XFieldElement)) :
    ∀ init : List BFieldElement,
      fp.foldl (fun bs pr =>
        ((pr.1.nodes.filterMap id).foldl (fun acc node => acc ++ node) bs) ++
          xs_to_bs [pr.2]) init =
      init ++ (fp.map (fun pr =>
        (pr.1.nodes.filterMap id).flatten ++ pr.2.coefficients)).flatten := by
  induction fp with
  | nil => intro init; simp
  | cons pr fp ih =>
    intro init
    rw [List.foldl_cons, ih, foldl_append_eq (fun node => node)]
    simp [xs_to_bs, List.append_assoc]

theorem intoIter_caps_foldl
    (caps : List (PartialAuthenticationPath (List BFieldElement))) :
    ∀ init : List BFieldElement,
      caps.foldl (fun bs p =>
        (p.nodes.filterMap id).foldl (fun acc node => acc ++ node) bs) init =
      init ++ (caps.map (fun p => (p.nodes.filterMap id).flatten)).flatten := by
  induction caps with
  | nil => intro init; simp
  | cons p caps ih =>
    intro init
    rw [List.foldl_cons, ih, foldl_append_eq (fun node => node)]
    simp [List.append_assoc]

/-- C5: flattening a FRI-proof item yields, for each entry in input order,
the base-field elements of the present nodes of its partial authentication
path in node order, then the fixed-size coefficient sequence of its
extension-field value (path-then-value); flattening a
compressed-authentication-paths item yields only the present path-node
elements, in the same order. -/
theorem into_iter_path_then_value :
    (∀ fp : FriProof, (Item.FriProof fp).into_iter =
      (fp.map (fun pr =>
        (pr.1.nodes.filterMap id).flatten ++ pr.2.coefficients)).flatten) ∧
    (∀ caps : CompressedAuthenticationPaths,
      (Item.CompressedAuthenticationPaths caps).into_iter =
      (caps.map (fun p => (p.nodes.filterMap id).flatten)).flatten) := by
  constructor
  · intro fp
    rw [Item.into_iter, intoIter_friProof_foldl fp []]
    simp
  · intro caps
    rw [Item.into_iter, intoIter_caps_foldl caps []]
    simp

theorem zipWith3_length {α β γ δ : Type} (f : α → β → γ → δ) :
    ∀ (as : List α) (bs : List β) (cs : List γ),
      (zipWith3 f as bs cs).length = min as.length (min bs.length cs.length) := by
  intro as
  induction as with
  | nil => intro bs cs; cases bs <;> cases cs <;> simp [zipWith3]
  | cons a as ih =>
    intro bs cs
    cases bs with
    | nil => simp [zipWith3]
    | cons b bs =>
      cases cs with
      | nil => simp [zipWith3]
      | cons c cs => simp [zipWith3, ih]; omega

theorem zipWith3_getD {α β γ δ : Type} (f : α → β → γ → δ)
    (d1 : α) (d2 : β) (d3 : γ) (d : δ) :
    ∀ (as : List α) (bs : List β) (cs : List γ) (i : Nat),
      i < as.length → i < bs.length → i < cs.length →
      (zipWith3 f as bs cs).getD i d =
        f (as.getD i d1) (bs.getD i d2) (cs.getD i d3) := by
  intro as
  induction as with
  | nil => intro bs cs i ha hb hc; simp at ha
  | cons a as ih =>
    intro bs cs i ha hb hc
    cases bs with
    | nil => simp at hb
    | cons b bs =>
      cases cs with
      | nil => simp at hc
      | cons c cs =>
        cases i with
        | zero => simp [zipWith3]
        | succ j =>
          simp only [zipWith3, List.getD_cons_succ]
          exact ih bs cs j (by simpa using ha) (by simpa using hb) (by simpa using hc)

/-- C1: when the two named codewords have the same length as the FRI domain,
`quotient` returns a codeword of that length whose `i`-th entry is
`(lhs[i] − rhs[i])` times the inverse of `(x_i − 1)`, where `x_i` is the
`i`-th FRI-domain point. -/
theorem perm_arg_quotient_pointwise {F P : Type} [Field F] (pa : PermArg)
    (ext_codeword_tables : ExtTableCollection F) (fri_domain : FriDomain F P)
    (i : Nat)
    (hlhs : ((ext_codeword_tables.data pa.from_table).getD pa.from_column []).length =
      fri_domain.domain_values.length)
    (hrhs : ((ext_codeword_tables.data pa.to_table).getD pa.to_column []).length =
      fri_domain.domain_values.length)
    (hi : i < fri_domain.domain_values.length) :
    (pa.quotient ext_codeword_tables fri_domain).length =
      fri_domain.domain_values.length ∧
    (pa.quotient ext_codeword_tables fri_domain).getD i 0 =
      (((ext_codeword_tables.data pa.from_table).getD pa.from_column []).getD i 0 -
        ((ext_codeword_tables.data pa.to_table).getD pa.to_column []).getD i 0) *
        (fri_domain.domain_values.getD i 0 - 1)⁻¹ := by
  have hq : pa.quotient ext_codeword_tables fri_domain =
      zipWith3 (fun f t z => (f - t) * z)
        ((ext_codeword_tables.data pa.from_table).getD pa.from_column [])
        ((ext_codeword_tables.data pa.to_table).getD pa.to_column [])
        ((fri_domain.domain_values.map (fun x => x - 1)).map (fun x => x⁻¹)) := rfl
  constructor
  · rw [hq, zipWith3_length]
    simp only [List.length_map]
    rw [hlhs, hrhs]
    simp
  · rw [hq, zipWith3_getD (fun f t z => (f - t) * z) 0 0
      ((fri_domain.domain_values.getD i 0 - 1)⁻¹) 0 _ _ _ i
      (by rw [hlhs]; exact hi) (by rw [hrhs]; exact hi) (by simpa using hi)]
    congr 1
    rw [List.getD_eq_getElem _ _ (by simpa using hi), List.getElem_map, List.getElem_map,
      List.getD_eq_getElem _ _ hi]

theorem perm_arg_quotient_pointwise_witness :
    ((((⟨fun _ => [[(2 : ℚ)]], 1⟩ : ExtTableCollection ℚ).data
        TableId.ProcessorTable).getD 0 []).length = [(3 : ℚ)].length) ∧
    ((0 : Nat) < [(3 : ℚ)].length) ∧
    (((PermArg.new TableId.ProcessorTable 0 TableId.InstructionTable 0).quotient
        (⟨fun _ => [[(2 : ℚ)]], 1⟩ : ExtTableCollection ℚ)
        (⟨1, 1, [(3 : ℚ)], fun _ : Unit => []⟩ : FriDomain ℚ Unit)).getD 0 0 =
      ((((⟨fun _ => [[(2 : ℚ)]], 1⟩ : ExtTableCollection ℚ).data
          TableId.ProcessorTable).getD 0 []).getD 0 0 -
        (((⟨fun _ => [[(2 : ℚ)]], 1⟩ : ExtTableCollection ℚ).data
          TableId.InstructionTable).getD 0 []).getD 0 0) *
        (([(3 : ℚ)].getD 0 0) - 1)⁻¹) :=
  ⟨rfl, by decide,
    (perm_arg_quotient_pointwise
      (PermArg.new TableId.ProcessorTable 0 TableId.InstructionTable 0)
      (⟨fun _ => [[(2 : ℚ)]], 1⟩ : ExtTableCollection ℚ)
      (⟨1, 1, [(3 : ℚ)], fun _ : Unit => []⟩ : FriDomain ℚ Unit)
      0 rfl rfl (by decide)).2⟩

theorem disjoint_domain_unfold (k : Nat) (S : List BFieldElement) (one : BFieldElement) :
    disjoint_domain k S one =
      (((List.range (2 ^ 32)).map (fun d => (Nat.cast d : BFieldElement))).filter
        (fun d => decide (d ∉ S))).take k := rfl

/-- C3 counterexample: the source scans only the first `2^32` natural
representatives, so requesting `2^32 + 1` elements with nothing excluded
returns fewer than requested — the claim's unrestricted "returns exactly
`k` elements" fails at this input. -/
theorem disjoint_domain_not_always_k :
    (disjoint_domain (2 ^ 32 + 1) ([] : List BFieldElement) 1).length ≠ 2 ^ 32 + 1 := by
  rw [disjoint_domain_unfold, List.length_take]
  simp

/-- C3 (amended): whenever the scanned enumeration can supply the request,
i.e. `k + |S| ≤ 2^32`, `disjoint_domain(k, S)` returns exactly `k`
pairwise-distinct elements, none of which belongs to `S`, in increasing
enumeration order of the natural superset `0, 1, 2, …`; concretely,
excluding `{2, 5, 4}` and requesting 5 elements yields `[0, 1, 3, 6, 7]`. -/
theorem disjoint_domain_correct :
    (∀ (k : Nat) (S : List BFieldElement) (one : BFieldElement),
      k + S.length ≤ 2 ^ 32 →
      (disjoint_domain k S one).length = k ∧
      (disjoint_domain k S one).Nodup ∧
      (∀ x ∈ disjoint_domain k S one, x ∉ S) ∧
      (disjoint_domain k S one).Pairwise (fun a b => a.val < b.val)) ∧
    disjoint_domain 5 ([2, 5, 4] : List BFieldElement) 1 = [0, 1, 3, 6, 7] := by
  have hp : (2 : Nat) ^ 32 < 18446744069414584321 := by norm_num
  constructor
  · intro k S one hkS
    have hinj : ∀ a ∈ List.range (2 ^ 32), ∀ b ∈ List.range (2 ^ 32),
        (Nat.cast a : BFieldElement) = Nat.cast b → a = b := by
      intro a ha b hb hab
      have ha2 := List.mem_range.mp ha
      have hb2 := List.mem_range.mp hb
      have hval := congrArg ZMod.val hab
      rwa [ZMod.val_cast_of_lt (by omega), ZMod.val_cast_of_lt (by omega)] at hval
    have hnodup : ((List.range (2 ^ 32)).map
        (fun d => (Nat.cast d : BFieldElement))).Nodup :=
      List.Nodup.map_on hinj (List.nodup_range _)
    have hbaselen : ((List.range (2 ^ 32)).map
        (fun d => (Nat.cast d : BFieldElement))).length = 2 ^ 32 := by simp
    have hsplit := @List.length_eq_length_filter_add BFieldElement
      ((List.range (2 ^ 32)).map (fun d => (Nat.cast d : BFieldElement)))
      (fun d => decide (d ∉ S))
    have hnotlen : (((List.range (2 ^ 32)).map
        (fun d => (Nat.cast d : BFieldElement))).filter
          (fun d => !decide (d ∉ S))).length ≤ S.length := by
      have hnd := List.Nodup.filter (fun d => !decide (d ∉ S)) hnodup
      have hsubF : (((List.range (2 ^ 32)).map
          (fun d => (Nat.cast d : BFieldElement))).filter
            (fun d => !decide (d ∉ S))).toFinset ⊆ S.toFinset := by
        intro x hx
        rw [List.mem_toFinset] at hx ⊢
        have := List.of_mem_filter hx
        simpa using this
      have h1 := Finset.card_le_card hsubF
      rw [List.toFinset_card_of_nodup hnd] at h1
      exact le_trans h1 (List.toFinset_card_le S)
    have hfilterlen : k ≤ (((List.range (2 ^ 32)).map
        (fun d => (Nat.cast d : BFieldElement))).filter
          (fun d => decide (d ∉ S))).length := by omega
    refine ⟨?_, ?_, ?_, ?_⟩
    · rw [disjoint_domain_unfold, List.length_take]
      exact Nat.min_eq_left hfilterlen
    · rw [disjoint_domain_unfold]
      exact List.Nodup.sublist
        ((List.take_sublist _ _).trans (List.filter_sublist _)) hnodup
    · intro x hx
      rw [disjoint_domain_unfold] at hx
      have hx2 := List.take_subset _ _ hx
      have := List.of_mem_filter hx2
      simpa using this
    · have hpw : ((List.range (2 ^ 32)).map
          (fun d => (Nat.cast d : BFieldElement))).Pairwise
            (fun a b => a.val < b.val) := by
        rw [List.pairwise_map, List.pairwise_iff_getElem]
        intro i j hi hj hij
        simp only [List.length_range] at hi hj
        rw [List.getElem_range, List.getElem_range,
          ZMod.val_cast_of_lt (by omega), ZMod.val_cast_of_lt (by omega)]
        exact hij
      rw [disjoint_domain_unfold]
      exact List.Pairwise.sublist
        ((List.take_sublist _ _).trans (List.filter_sublist _)) hpw
  · have h8 : (2 : Nat) ^ 32 = 8 + (2 ^ 32 - 8) := by norm_num
    rw [disjoint_domain_unfold, h8, List.range_add, List.map_append, List.filter_append,
      List.take_append_eq_append_take]
    have hA : (((List.range 8).map (fun d => (Nat.cast d : BFieldElement))).filter
        (fun d => decide (d ∉ ([2, 5, 4] : List BFieldElement)))) =
        [0, 1, 3, 6, 7] := by decide
    rw [hA]
    simp

theorem disjoint_domain_correct_witness :
    5 + ([2, 5, 4] : List BFieldElement).length ≤ 2 ^ 32 ∧
    (disjoint_domain 5 ([2, 5, 4] : List BFieldElement) 1).length = 5 :=
  ⟨by decide, (disjoint_domain_correct.1 5 [2, 5, 4] 1 (by decide)).1⟩

theorem lengthAssertMessage_ne_paddingAssertMessage (s : String) :
    lengthAssertMessage ≠ paddingAssertMessage s := by
  intro h
  have hlen := congrArg String.length h
  rw [paddingAssertMessage, String.length_append] at hlen
  have h1 : lengthAssertMessage.length = 42 := rfl
  have h2 : (": Table data must be padded before interpolation").length = 48 := rfl
  omega

/-- C8: `interpolate_columns` (and hence `low_degree_extension`) fails the
"Table data must be padded before interpolation" assertion for every pair
of values with `matrix.len() ≠ shared_padded_height`, and that
assertion-failure branch is unreachable whenever
`matrix.len() = shared_padded_height`. -/
theorem interpolation_requires_padding {F P : Type} [Field F] [DecidableEq F]
    (fast_interpolate : List F → List F → F → Nat → P) (poly_ring_zero : P)
    (randomizers : Nat → List F) (t : BaseTable F) (fri_domain : FriDomain F P)
    (omicron : F) (shared_padded_height num_trace_randomizers : Nat)
    (columns : List Nat) :
    (shared_padded_height ≠ t.matrix.length →
      BaseTable.interpolate_columns fast_interpolate poly_ring_zero randomizers t
          fri_domain omicron shared_padded_height num_trace_randomizers columns =
        Except.error (paddingAssertMessage t.name) ∧
      BaseTable.low_degree_extension fast_interpolate poly_ring_zero randomizers t
          fri_domain omicron shared_padded_height num_trace_randomizers columns =
        Except.error (paddingAssertMessage t.name)) ∧
    (shared_padded_height = t.matrix.length →
      BaseTable.interpolate_columns fast_interpolate poly_ring_zero randomizers t
          fri_domain omicron shared_padded_height num_trace_randomizers columns ≠
        Except.error (paddingAssertMessage t.name) ∧
      BaseTable.low_degree_extension fast_interpolate poly_ring_zero randomizers t
          fri_domain omicron shared_padded_height num_trace_randomizers columns ≠
        Except.error (paddingAssertMessage t.name)) := by
  constructor
  · intro hne
    have hInt : BaseTable.interpolate_columns fast_interpolate poly_ring_zero randomizers t
        fri_domain omicron shared_padded_height num_trace_randomizers columns =
        Except.error (paddingAssertMessage t.name) := by
      unfold BaseTable.interpolate_columns
      rw [if_neg hne]
    refine ⟨hInt, ?_⟩
    unfold BaseTable.low_degree_extension
    rw [hInt]
    rfl
  · intro heq
    have hInt : BaseTable.interpolate_columns fast_interpolate poly_ring_zero randomizers t
        fri_domain omicron shared_padded_height num_trace_randomizers columns ≠
        Except.error (paddingAssertMessage t.name) := by
      intro hc
      simp only [BaseTable.interpolate_columns] at hc
      rw [if_pos heq] at hc
      split at hc
      · exact Except.noConfusion hc
      · split at hc
        · exact Except.noConfusion hc
        · exact lengthAssertMessage_ne_paddingAssertMessage t.name (Except.error.inj hc)
    refine ⟨hInt, ?_⟩
    intro hc
    unfold BaseTable.low_degree_extension at hc
    cases hi : BaseTable.interpolate_columns fast_interpolate poly_ring_zero randomizers t
        fri_domain omicron shared_padded_height num_trace_randomizers columns with
    | ok v =>
      rw [hi] at hc
      exact Except.noConfusion hc
    | error e =>
      rw [hi] at hc
      simp only [Except.map] at hc
      rw [Except.error.inj hc] at hi
      exact hInt hi

theorem interpolation_requires_padding_witness :
    ((1 : Nat) ≠ (BaseTable.new 1 1 ([] : List (List ℚ)) "t").matrix.length) ∧
    BaseTable.interpolate_columns (fun _ _ _ _ => ()) () (fun _ => [])
        (BaseTable.new 1 1 ([] : List (List ℚ)) "t")
        (⟨1, 0, [], fun _ : Unit => []⟩ : FriDomain ℚ Unit) 1 1 0 [] =
      Except.error
        (paddingAssertMessage (BaseTable.new 1 1 ([] : List (List ℚ)) "t").name) :=
  ⟨by decide,
    ((interpolation_requires_padding (fun _ _ _ _ => ()) () (fun _ => [])
      (BaseTable.new 1 1 ([] : List (List ℚ)) "t")
      (⟨1, 0, [], fun _ : Unit => []⟩ : FriDomain ℚ Unit) 1 1 0 []).1 (by decide)).1⟩
